import Mathlib

/-!
Shallow embedding of the wasm boundary adapter in `src/wasm/src/lib.rs`
(repository `cvxjs`): the `solve` entry point that marshals a conic
optimization problem to the external Clarabel solver and marshals results
back.  The external solver itself is opaque (per the repository's design)
and is embedded as an oracle `SolverCall → SolverRun`; the one piece of
external behavior modelled concretely is `CscMatrix::new`'s documented
dimensional-compatibility asserts (`cscNewOk`), because the adapter runs
those constructors outside its fault-isolation scope.  The code under
`src/` is embedded function by function.

Floating-point values crossing the boundary only ever participate in the
embedded code through construction, field access, equality with literals
and the `is_infinite` test, so `f64` is embedded as an inductive carrying a
rational for finite values plus the three non-finite shapes.
-/

set_option autoImplicit false

namespace CvxJs

/-- Embedding of `f64` values as used by the adapter: a finite value
(carried as the rational it denotes), the two infinities, and NaN.  The
adapter only constructs floats, stores them, compares them with literals
and asks `is_infinite`, so this discrimination is exact for the embedded
code. -/
inductive F64 where
  | finite (q : ℚ)
  | inf
  | negInf
  | nan
  deriving DecidableEq

/-- `f64::is_infinite`: true exactly on the two infinities (not NaN). -/
def F64.isInfinite : F64 → Bool
  | .inf => true
  | .negInf => true
  | _ => false

/-- A JSON value, the structured data produced by `serde_json`'s syntax
layer from an input text.  Numbers are carried as the rational they
denote (JSON text cannot denote infinities or NaN). -/
inductive Json where
  | null
  | bool (b : Bool)
  | num (q : ℚ)
  | str (s : String)
  | arr (elems : List Json)
  | obj (fields : List (String × Json))

/-- First value bound to `name` in a JSON object's field list. -/
def Json.getField (fields : List (String × Json)) (name : String) : Option Json :=
  (fields.find? (fun p => p.1 = name)).map (fun p => p.2)

/-- Deserialize a `usize` field value (wasm32: 32-bit): a JSON number that
is a non-negative integer below `2^32`; anything else is a type error. -/
def Json.asUsize : Json → Except String Nat
  | .num q =>
      if q.den = 1 ∧ 0 ≤ q.num ∧ q.num < 2 ^ 32 then
        .ok q.num.toNat
      else
        .error "invalid value: expected usize"
  | _ => .error "invalid type: expected integer"

/-- Deserialize a `u32` field value: a JSON number that is a non-negative
integer below `2^32`. -/
def Json.asU32 : Json → Except String Nat
  | .num q =>
      if q.den = 1 ∧ 0 ≤ q.num ∧ q.num < 2 ^ 32 then
        .ok q.num.toNat
      else
        .error "invalid value: expected u32"
  | _ => .error "invalid type: expected integer"

/-- Deserialize an `f64` field value from a JSON number. -/
def Json.asF64 : Json → Except String F64
  | .num q => .ok (F64.finite q)
  | _ => .error "invalid type: expected float"

/-- Deserialize a `bool` field value. -/
def Json.asBool : Json → Except String Bool
  | .bool b => .ok b
  | _ => .error "invalid type: expected boolean"

/-- Deserialize a `Vec<usize>` field value. -/
def Json.asUsizeList : Json → Except String (List Nat)
  | .arr elems => elems.mapM Json.asUsize
  | _ => .error "invalid type: expected sequence"

/-- Deserialize a `Vec<f64>` field value. -/
def Json.asF64List : Json → Except String (List F64)
  | .arr elems => elems.mapM Json.asF64
  | _ => .error "invalid type: expected sequence"

/-- A struct field with no `#[serde(default)]` attribute: required, so a
missing field is a deserialization error (serde's `missing field`
message). -/
def reqField {α : Type} (fields : List (String × Json)) (name : String)
    (conv : Json → Except String α) : Except String α :=
  match Json.getField fields name with
  | none => .error ("missing field `" ++ name ++ "`")
  | some v => conv v

/-- A struct field with `#[serde(default = d)]`: optional, a missing field
takes the default value. -/
def optField {α : Type} (fields : List (String × Json)) (name : String)
    (conv : Json → Except String α) (dflt : α) : Except String α :=
  match Json.getField fields name with
  | none => .ok dflt
  | some v => conv v

/-- `ConeSpec` (src/wasm/src/lib.rs lines 25-37): cone specification
received from JavaScript. -/
structure ConeSpec where
  /-- Zero cone dimension (equality constraints). -/
  zero : Nat
  /-- Nonnegative cone dimension (inequality constraints). -/
  nonneg : Nat
  /-- Second-order cone dimensions. -/
  soc : List Nat
  /-- Number of exponential cones (each is 3D). -/
  exp : Nat
  /-- Power cone alphas (each cone is 3D). -/
  power : List F64
  deriving DecidableEq

/-- `serde` deserialization of `ConeSpec` from a JSON value, following the
derived `Deserialize` instance for the struct declaration: a JSON object is
required, and all five fields are required (none carries a
`#[serde(default)]` attribute). -/
def ConeSpec.fromJson (j : Json) : Except String ConeSpec :=
  match j with
  | .obj fields =>
      Except.bind (reqField fields "zero" Json.asUsize) (fun zeroDim =>
      Except.bind (reqField fields "nonneg" Json.asUsize) (fun nonneg =>
      Except.bind (reqField fields "soc" Json.asUsizeList) (fun soc =>
      Except.bind (reqField fields "exp" Json.asUsize) (fun exp =>
      Except.bind (reqField fields "power" Json.asF64List) (fun power =>
      .ok ⟨zeroDim, nonneg, soc, exp, power⟩)))))
  | _ => .error "invalid type: expected struct ConeSpec"

/-- `serde_json::from_str::<ConeSpec>`: the syntax layer (external to this
repository, so its outcome — a JSON value, or a syntax-error message — is
an input) followed by the derived struct deserialization. -/
def ConeSpec.parse (input : Except String Json) : Except String ConeSpec :=
  match input with
  | .error e => .error e
  | .ok j => ConeSpec.fromJson j

/-- `default_max_iter` (line 54). -/
def default_max_iter : Nat := 100

/-- `default_time_limit` (line 55): `f64::INFINITY`. -/
def default_time_limit : F64 := F64.inf

/-- `default_tol` (line 56): `1e-8`. -/
def default_tol : F64 := F64.finite (1 / 10 ^ 8)

/-- `SolverSettings` (src/wasm/src/lib.rs lines 40-52): solver settings
received from JavaScript. -/
structure SolverSettings where
  verbose : Bool
  max_iter : Nat
  time_limit : F64
  tol_gap_abs : F64
  tol_gap_rel : F64
  deriving DecidableEq

/-- `SolverSettings::default()` as produced by `#[derive(Default)]`: the
std `Default` derive takes each field type's default (`false`, `0`, `0.0`)
and ignores the `#[serde(default = ...)]` attributes, which only apply to
deserialization of individually missing fields. -/
def SolverSettings.default : SolverSettings :=
  { verbose := false
    max_iter := 0
    time_limit := F64.finite 0
    tol_gap_abs := F64.finite 0
    tol_gap_rel := F64.finite 0 }

/-- `serde` deserialization of `SolverSettings` from a JSON value,
following the derived `Deserialize` instance: a JSON object is required,
and every field is optional — `verbose` has plain `#[serde(default)]`
(type default `false`), the others have `#[serde(default = fn)]`. -/
def SolverSettings.fromJson (j : Json) : Except String SolverSettings :=
  match j with
  | .obj fields =>
      Except.bind (optField fields "verbose" Json.asBool false) (fun verbose =>
      Except.bind (optField fields "max_iter" Json.asU32 default_max_iter) (fun max_iter =>
      Except.bind (optField fields "time_limit" Json.asF64 default_time_limit) (fun time_limit =>
      Except.bind (optField fields "tol_gap_abs" Json.asF64 default_tol) (fun tol_gap_abs =>
      Except.bind (optField fields "tol_gap_rel" Json.asF64 default_tol) (fun tol_gap_rel =>
      .ok ⟨verbose, max_iter, time_limit, tol_gap_abs, tol_gap_rel⟩)))))
  | _ => .error "invalid type: expected struct SolverSettings"

/-- `serde_json::from_str::<SolverSettings>`: syntax layer outcome as
input, then the derived struct deserialization. -/
def SolverSettings.parse (input : Except String Json) : Except String SolverSettings :=
  match input with
  | .error e => .error e
  | .ok j => SolverSettings.fromJson j

/-- Clarabel's `SupportedConeT<f64>` constructors used by the adapter. -/
inductive SupportedConeT where
  | ZeroConeT (dim : Nat)
  | NonnegativeConeT (dim : Nat)
  | SecondOrderConeT (dim : Nat)
  | ExponentialConeT
  | PowerConeT (alpha : F64)
  deriving DecidableEq

/-- `build_cones` (src/wasm/src/lib.rs lines 59-83): build the Clarabel
cone list from a `ConeSpec` by successive pushes — conditional pushes for
the zero and nonnegative cones, then one push per `soc` entry, per unit of
`exp` (the `for _ in 0..spec.exp` loop, embedded as a fold over
`List.range spec.exp`), and per `power` entry. -/
def build_cones (spec : ConeSpec) : List SupportedConeT :=
  let cones : List SupportedConeT := []
  let cones := if spec.zero > 0 then cones ++ [.ZeroConeT spec.zero] else cones
  let cones := if spec.nonneg > 0 then cones ++ [.NonnegativeConeT spec.nonneg] else cones
  let cones := spec.soc.foldl (fun acc dim => acc ++ [.SecondOrderConeT dim]) cones
  let cones := (List.range spec.exp).foldl (fun acc _ => acc ++ [.ExponentialConeT]) cones
  let cones := spec.power.foldl (fun acc alpha => acc ++ [.PowerConeT alpha]) cones
  cones

/-- Clarabel's `SolverStatus` enumeration.  The five variants named in the
adapter's `match` are taken from the source; the remaining variants of the
external enumeration (matched only by the wildcard arm) are listed from
Clarabel's public API — the wildcard makes their exact roster immaterial to
the adapter's behavior. -/
inductive SolverStatus where
  | Unsolved
  | Solved
  | PrimalInfeasible
  | DualInfeasible
  | AlmostSolved
  | AlmostPrimalInfeasible
  | AlmostDualInfeasible
  | MaxIterations
  | MaxTime
  | NumericalError
  | InsufficientProgress
  deriving DecidableEq

/-- `status_to_string` (src/wasm/src/lib.rs lines 86-95): convert solver
status to string; five named arms and a wildcard to "unknown". -/
def status_to_string (status : SolverStatus) : String :=
  match status with
  | .Solved => "optimal"
  | .PrimalInfeasible => "infeasible"
  | .DualInfeasible => "unbounded"
  | .MaxIterations => "max_iterations"
  | .MaxTime => "max_iterations"
  | _ => "unknown"

/-- Clarabel's `CscMatrix::<f64>`: the record that
`CscMatrix::new(m, n, colptr, rowidx, values)` bundles from the caller's
data.  The constructor's own dimensional-compatibility asserts — which
panic on failure, and which the adapter runs outside its fault-isolation
scope — are modelled separately by `cscNewOk` and applied in `solveHost`;
a `CscMatrix` value therefore stands for the data of a construction whose
asserts have passed. -/
structure CscMatrix where
  rows : Nat
  cols : Nat
  colptr : List Nat
  rowidx : List Nat
  values : List F64
  deriving DecidableEq

/-- The Clarabel `DefaultSettings` fields the adapter sets through
`DefaultSettingsBuilder` (lines 184-191); the remaining settings keep
Clarabel's defaults and are never touched by the adapter, so they are
opaque here.  All five fields are supplied, so the builder's `build()`
cannot fail. -/
structure DefaultSettings where
  verbose : Bool
  max_iter : Nat
  time_limit : F64
  tol_gap_abs : F64
  tol_gap_rel : F64
  deriving DecidableEq

/-- The complete argument tuple of one `DefaultSolver::new(...)` +
`solve()` invocation: everything the adapter hands to the external
solver. -/
structure SolverCall where
  P : CscMatrix
  q : List F64
  A : CscMatrix
  b : List F64
  cones : List SupportedConeT
  settings : DefaultSettings
  deriving DecidableEq

/-- The payload of a Rust panic as inspected by the adapter's
`downcast_ref` chain: a `&str`, a `String`, or anything else. -/
inductive PanicPayload where
  | str (s : String)
  | string (s : String)
  | other
  deriving DecidableEq

/-- One possible behavior of the external solver on a call: return
normally with a solution status, solution data and run statistics, or
terminate abnormally with a panic payload. -/
inductive SolverRun where
  | ok (status : SolverStatus) (obj_val : F64) (x : List F64) (z : List F64)
      (solve_time : F64) (iterations : Nat)
  | panicked (payload : PanicPayload)

/-- `SolveResult` (src/wasm/src/lib.rs lines 8-22): the record returned to
the host. -/
structure SolveResult where
  status : String
  obj_val : Option F64
  x : Option (List F64)
  z : Option (List F64)
  solve_time : F64
  iterations : Nat
  deriving DecidableEq

/-- The flat numeric arguments of `solve` (lines 114-126), bundled: the
`u32` index slices are value-preservingly widened to `usize` by the
adapter (lines 132-135), embedded as `List Nat` throughout. -/
structure ProblemData where
  p_col_ptr : List Nat
  p_row_idx : List Nat
  p_values : List F64
  q : List F64
  a_col_ptr : List Nat
  a_row_idx : List Nat
  a_values : List F64
  b : List F64
  n : Nat
  m : Nat
  deriving DecidableEq

/-- Message extraction from a caught panic (lines 228-234): prefer a
`&str` payload, then a `String` payload, else the generic message. -/
def panicMessage : PanicPayload → String
  | .str s => s
  | .string s => s
  | .other => "Unknown panic"

/-- Settings actually used by `solve` (line 154):
`serde_json::from_str(settings_json).unwrap_or_default()` — a parse
failure falls back to `SolverSettings::default()` (the `derive(Default)`
zeros, not the serde field defaults). -/
def parsedSettings (settings_json : Except String Json) : SolverSettings :=
  match SolverSettings.parse settings_json with
  | .ok s => s
  | .error _ => SolverSettings.default

/-- The solver invocation the adapter assembles (lines 156-196): the two
CSC matrices, the cone list, and the Clarabel settings — with an infinite
`time_limit` replaced by the finite sentinel `1e10` ("~317 years,
effectively infinite", lines 177-182).  This is the data handed to the
external solver inside the fault-isolation scope; it is only reached when
the two matrix constructions' asserts (modelled by `cscNewOk`, checked in
`solveHost` because they run outside that scope) have passed. -/
def buildCall (pd : ProblemData) (spec : ConeSpec) (settings : SolverSettings) : SolverCall :=
  let p : CscMatrix := ⟨pd.n, pd.n, pd.p_col_ptr, pd.p_row_idx, pd.p_values⟩
  let a : CscMatrix := ⟨pd.m, pd.n, pd.a_col_ptr, pd.a_row_idx, pd.a_values⟩
  let cones := build_cones spec
  let time_limit := if settings.time_limit.isInfinite then F64.finite (10 ^ 10)
                    else settings.time_limit
  let solver_settings : DefaultSettings :=
    { verbose := settings.verbose
      max_iter := settings.max_iter
      time_limit := time_limit
      tol_gap_abs := settings.tol_gap_abs
      tol_gap_rel := settings.tol_gap_rel }
  { P := p, q := pd.q, A := a, b := pd.b, cones := cones, settings := solver_settings }

/-- The marshalling of `solve` (src/wasm/src/lib.rs lines 114-247): the
`SolveResult` the call produces on the paths that return one.  The
external solver is the `oracle` parameter; the `serde_json` syntax
layer's outcomes for the two JSON texts are the `Except String Json`
parameters.  The `panic::catch_unwind` fault-isolation scope is the
`match` on the oracle's `SolverRun`: a normal run is translated to a
`SolveResult`, a panic to the `error: solver panic:` result.  A cone-spec
parse failure short-circuits before any matrix is constructed or the
solver called.  The matrix constructors' asserts, which run outside the
fault-isolation scope and whose failure therefore produces no
`SolveResult` at all, are modelled in `solveHost` below. -/
def solve (oracle : SolverCall → SolverRun) (pd : ProblemData)
    (cone_spec_json settings_json : Except String Json) : SolveResult :=
  match ConeSpec.parse cone_spec_json with
  | .error e =>
      { status := "error: invalid cone spec: " ++ e
        obj_val := none
        x := none
        z := none
        solve_time := F64.finite 0
        iterations := 0 }
  | .ok cone_spec =>
      let settings := parsedSettings settings_json
      match oracle (buildCall pd cone_spec settings) with
      | .ok status obj_val x z solve_time iterations =>
          { status := status_to_string status
            obj_val := if status = SolverStatus.Solved then some obj_val else none
            x := if status = SolverStatus.Solved then some x else none
            z := if status = SolverStatus.Solved then some z else none
            solve_time := solve_time
            iterations := iterations }
      | .panicked payload =>
          { status := "error: solver panic: " ++ panicMessage payload
            obj_val := none
            x := none
            z := none
            solve_time := F64.finite 0
            iterations := 0 }

/-- `test_wasm` (lines 251-253). -/
def test_wasm : String := "Clarabel WASM is working!"

/-- `version` (lines 257-259). -/
def version : String := "clarabel-wasm 0.1.0"

/-! ### Concrete data for witnesses

The problem below is the repository's own example (`min x  s.t.  x ≥ 1`,
`src/wasm/examples/test_solver.rs`): `n = m = 1`, `P` empty, `q = [1]`,
`A = [[-1]]`, `b = [-1]`, one nonnegative cone of dimension 1. -/

/-- The example problem's flat data. -/
def pd0 : ProblemData :=
  { p_col_ptr := [0, 0], p_row_idx := [], p_values := []
    q := [F64.finite 1]
    a_col_ptr := [0, 1], a_row_idx := [0], a_values := [F64.finite (-1)]
    b := [F64.finite (-1)]
    n := 1, m := 1 }

/-- The example problem's cone specification. -/
def spec0 : ConeSpec := ⟨0, 1, [], 0, []⟩

/-- JSON value of the example cone specification. -/
def coneJson0 : Json :=
  .obj [("zero", .num 0), ("nonneg", .num 1), ("soc", .arr []),
        ("exp", .num 0), ("power", .arr [])]

/-- An external-solver behavior that always panics with a non-string
payload. -/
def oracleW1 : SolverCall → SolverRun := fun _ => .panicked .other

/-- An external-solver behavior that always succeeds with status
`Solved`. -/
def oracleW2 : SolverCall → SolverRun :=
  fun _ => .ok .Solved (F64.finite 1) [F64.finite 1] [F64.finite 1] (F64.finite 1) 5

/-- The `SolverSettings` value obtained when every field takes its serde
default: the defaults documented by the struct's field attributes. -/
def settingsAllDefaults : SolverSettings :=
  ⟨false, default_max_iter, default_time_limit, default_tol, default_tol⟩

/-- Modelled from the spec: Clarabel's `CscMatrix::new` (external code,
not under `src/`) makes rudimentary dimensional-compatibility checks and
panics when one fails — the row-index and value sequences must have equal
length `nnz`, the column-pointer sequence must have length `cols + 1`, and
its last entry must equal `nnz` (spec §3: "column_pointers (ordered
sequence of length n+1, ..., last=nnz), row_indices (sequence of length
nnz, ...)").  `true` means every assert passes; no assert involves the row
count. -/
def cscNewOk (cols : Nat) (colptr rowidx : List Nat) (values : List F64) : Bool :=
  (rowidx.length == values.length) && (colptr.length == cols + 1) &&
    (colptr.getLastD 0 == rowidx.length)

/-- What the host observes of one `solve` call: a returned `SolveResult`,
or an uncaught panic propagating across the boundary as a host fault. -/
inductive HostOutcome where
  | returned (r : SolveResult)
  | fault
  deriving DecidableEq

/-- The host-visible outcome of one `solve` call (src/wasm/src/lib.rs
lines 114-247), control flow included.  A cone-spec parse failure returns
the error result before any matrix is constructed (line 149).  Otherwise
`CscMatrix::new` runs for `P` (lines 157-163) and for `A` (lines 166-172)
outside the `catch_unwind` opened at line 194, so a failing constructor
assert is an uncaught panic that escapes to the host as a fault.  When
both constructions pass, the call returns the marshalled result of
`solve`. -/
def solveHost (oracle : SolverCall → SolverRun) (pd : ProblemData)
    (cone_spec_json settings_json : Except String Json) : HostOutcome :=
  match ConeSpec.parse cone_spec_json with
  | .error _ => .returned (solve oracle pd cone_spec_json settings_json)
  | .ok _ =>
      match cscNewOk pd.n pd.p_col_ptr pd.p_row_idx pd.p_values &&
            cscNewOk pd.n pd.a_col_ptr pd.a_row_idx pd.a_values with
      | true => .returned (solve oracle pd cone_spec_json settings_json)
      | false => .fault

/-- The example problem with a malformed `P` column-pointer array: length
0 instead of `n + 1 = 2`. -/
def pdBadColptr : ProblemData := { pd0 with p_col_ptr := [] }

/-! ### Helper lemmas -/

/-- `status` begins with `p`: the character sequence of `p` is a prefix of
the character sequence of `s`. -/
def strBeginsWith (p s : String) : Bool := p.data.isPrefixOf s.data

lemma isPrefixOf_append_self {l₁ l₂ : List Char} : l₁.isPrefixOf (l₁ ++ l₂) = true := by
  induction l₁ with
  | nil => simp
  | cons a as ih => simp [List.isPrefixOf_cons₂, ih]

lemma strBeginsWith_append (p rest : String) : strBeginsWith p (p ++ rest) = true := by
  unfold strBeginsWith
  rw [String.data_append]
  exact isPrefixOf_append_self

lemma strBeginsWith_cone_err (e : String) :
    strBeginsWith "error: " ("error: invalid cone spec: " ++ e) = true := by
  rw [show ("error: invalid cone spec: " : String) = "error: " ++ "invalid cone spec: " from rfl,
    String.append_assoc]
  exact strBeginsWith_append _ _

lemma strBeginsWith_panic_err (m : String) :
    strBeginsWith "error: " ("error: solver panic: " ++ m) = true := by
  rw [show ("error: solver panic: " : String) = "error: " ++ "solver panic: " from rfl,
    String.append_assoc]
  exact strBeginsWith_append _ _

lemma status_to_string_no_error_marker (s : SolverStatus) :
    strBeginsWith "error: " (status_to_string s) = false := by
  cases s <;> decide

lemma ne_of_append_longer {p e t : String} (h : t.length < p.length) : p ++ e ≠ t := by
  intro hEq
  have hLen := congrArg String.length hEq
  rw [String.length_append] at hLen
  omega

lemma cone_err_ne_optimal (e : String) :
    "error: invalid cone spec: " ++ e ≠ "optimal" :=
  ne_of_append_longer (by decide)

lemma panic_err_ne_optimal (m : String) :
    "error: solver panic: " ++ m ≠ "optimal" :=
  ne_of_append_longer (by decide)

lemma status_optimal_iff (s : SolverStatus) :
    status_to_string s = "optimal" ↔ s = .Solved := by
  cases s <;> decide

lemma solve_of_parse_error (oracle : SolverCall → SolverRun) (pd : ProblemData)
    {cone_spec_json : Except String Json} (settings_json : Except String Json) {e : String}
    (h : ConeSpec.parse cone_spec_json = .error e) :
    solve oracle pd cone_spec_json settings_json =
      ⟨"error: invalid cone spec: " ++ e, none, none, none, F64.finite 0, 0⟩ := by
  unfold solve
  rw [h]

lemma solve_of_panicked (oracle : SolverCall → SolverRun) (pd : ProblemData)
    {cone_spec_json : Except String Json} {settings_json : Except String Json}
    {spec : ConeSpec} {payload : PanicPayload}
    (h1 : ConeSpec.parse cone_spec_json = .ok spec)
    (h2 : oracle (buildCall pd spec (parsedSettings settings_json)) = .panicked payload) :
    solve oracle pd cone_spec_json settings_json =
      ⟨"error: solver panic: " ++ panicMessage payload, none, none, none, F64.finite 0, 0⟩ := by
  unfold solve
  rw [h1]
  simp only [h2]

lemma solve_of_run_ok (oracle : SolverCall → SolverRun) (pd : ProblemData)
    {cone_spec_json : Except String Json} {settings_json : Except String Json}
    {spec : ConeSpec} {st : SolverStatus} {obj : F64} {xs zs : List F64} {t : F64} {iters : Nat}
    (h1 : ConeSpec.parse cone_spec_json = .ok spec)
    (h2 : oracle (buildCall pd spec (parsedSettings settings_json)) =
            .ok st obj xs zs t iters) :
    solve oracle pd cone_spec_json settings_json =
      ⟨status_to_string st,
       if st = SolverStatus.Solved then some obj else none,
       if st = SolverStatus.Solved then some xs else none,
       if st = SolverStatus.Solved then some zs else none,
       t, iters⟩ := by
  unfold solve
  rw [h1]
  simp only [h2]

lemma exceptBind_error {α β : Type} (e : String) (f : α → Except String β) :
    Except.bind (.error e) f = .error e := rfl

lemma exceptBind_ok {α β : Type} (a : α) (f : α → Except String β) :
    Except.bind (.ok a) f = f a := rfl

lemma bindError_exists {α β : Type} (x : Except String α) (f : α → Except String β)
    (h : ∀ a, ∃ e, f a = .error e) : ∃ e, Except.bind x f = .error e := by
  cases x with
  | error e => exact ⟨e, rfl⟩
  | ok a => exact h a

lemma reqField_of_missing {α : Type} (fields : List (String × Json)) (name : String)
    (conv : Json → Except String α) (h : Json.getField fields name = none) :
    reqField fields name conv = .error ("missing field `" ++ name ++ "`") := by
  unfold reqField
  rw [h]

/-- Omitting any one of the five `ConeSpec` fields makes the derived
deserialization fail. -/
lemma coneSpec_missing_field (fields : List (String × Json)) (name : String)
    (hmem : name ∈ ["zero", "nonneg", "soc", "exp", "power"])
    (hmiss : Json.getField fields name = none) :
    ∃ e, ConeSpec.fromJson (Json.obj fields) = .error e := by
  simp only [List.mem_cons, List.not_mem_nil, or_false] at hmem
  simp only [ConeSpec.fromJson]
  rcases hmem with rfl | rfl | rfl | rfl | rfl
  · rw [reqField_of_missing _ _ _ hmiss]
    exact ⟨_, rfl⟩
  · refine bindError_exists _ _ (fun a => ?_)
    rw [reqField_of_missing _ _ _ hmiss]
    exact ⟨_, rfl⟩
  · refine bindError_exists _ _ (fun a => ?_)
    refine bindError_exists _ _ (fun b => ?_)
    rw [reqField_of_missing _ _ _ hmiss]
    exact ⟨_, rfl⟩
  · refine bindError_exists _ _ (fun a => ?_)
    refine bindError_exists _ _ (fun b => ?_)
    refine bindError_exists _ _ (fun c => ?_)
    rw [reqField_of_missing _ _ _ hmiss]
    exact ⟨_, rfl⟩
  · refine bindError_exists _ _ (fun a => ?_)
    refine bindError_exists _ _ (fun b => ?_)
    refine bindError_exists _ _ (fun c => ?_)
    refine bindError_exists _ _ (fun d => ?_)
    rw [reqField_of_missing _ _ _ hmiss]
    exact ⟨_, rfl⟩

lemma optField_asF64_ok {fields : List (String × Json)} {name : String} {dflt r : F64}
    (h : optField fields name Json.asF64 dflt = .ok r) :
    r = dflt ∨ ∃ q : ℚ, r = F64.finite q := by
  unfold optField at h
  cases hg : Json.getField fields name with
  | none =>
      rw [hg] at h
      cases h
      exact .inl rfl
  | some v =>
      rw [hg] at h
      cases v <;> simp [Json.asF64] at h
      exact .inr ⟨_, h.symm⟩

/-- Any successfully deserialized `SolverSettings` has a `time_limit` that
is either positive infinity (the serde default) or a finite value (a JSON
number) — JSON text cannot denote NaN or infinities. -/
lemma settings_fromJson_time_limit {j : Json} {s : SolverSettings}
    (h : SolverSettings.fromJson j = .ok s) :
    s.time_limit = F64.inf ∨ ∃ q : ℚ, s.time_limit = F64.finite q := by
  cases j <;> simp only [SolverSettings.fromJson] at h <;> try exact absurd h (by simp)
  case obj fields =>
    rcases hv : optField fields "verbose" Json.asBool false with e | verbose <;>
      rw [hv] at h
    · exact absurd h (by simp [exceptBind_error])
    rw [exceptBind_ok] at h
    rcases hmi : optField fields "max_iter" Json.asU32 default_max_iter with e | max_iter <;>
      rw [hmi] at h
    · exact absurd h (by simp [exceptBind_error])
    rw [exceptBind_ok] at h
    rcases htl : optField fields "time_limit" Json.asF64 default_time_limit with e | tl <;>
      rw [htl] at h
    · exact absurd h (by simp [exceptBind_error])
    rw [exceptBind_ok] at h
    rcases ha : optField fields "tol_gap_abs" Json.asF64 default_tol with e | ta <;>
      rw [ha] at h
    · exact absurd h (by simp [exceptBind_error])
    rw [exceptBind_ok] at h
    rcases hr : optField fields "tol_gap_rel" Json.asF64 default_tol with e | tr <;>
      rw [hr] at h
    · exact absurd h (by simp [exceptBind_error])
    rw [exceptBind_ok] at h
    cases h
    rcases optField_asF64_ok htl with hd | ⟨q, hq⟩
    · exact .inl (by rw [hd]; rfl)
    · exact .inr ⟨q, hq⟩

/-- The settings actually used by `solve` carry a `time_limit` that is
either positive infinity or finite. -/
lemma parsedSettings_time_limit (sj : Except String Json) :
    (parsedSettings sj).time_limit = F64.inf ∨
      ∃ q : ℚ, (parsedSettings sj).time_limit = F64.finite q := by
  unfold parsedSettings
  cases hp : SolverSettings.parse sj with
  | error e => exact .inr ⟨0, rfl⟩
  | ok s =>
      cases sj with
      | error e => exact absurd hp (by simp [SolverSettings.parse])
      | ok j => exact settings_fromJson_time_limit (by simpa [SolverSettings.parse] using hp)

lemma foldl_push_eq_append_map {α β : Type} (f : α → β) (l : List α) (init : List β) :
    l.foldl (fun acc x => acc ++ [f x]) init = init ++ l.map f := by
  induction l generalizing init with
  | nil => simp
  | cons a as ih => simp [ih, List.append_assoc]

lemma range_foldl_push_eq_append_replicate {β : Type} (c : β) (n : Nat) (init : List β) :
    (List.range n).foldl (fun acc _ => acc ++ [c]) init = init ++ List.replicate n c := by
  rw [foldl_push_eq_append_map (fun _ => c) (List.range n) init]
  congr 1
  simp [List.map_const']

/-! ### Claim theorems -/

/-- Counterexample to claim C1 as stated: not every failure arising
during a `solve` call is converted into data.  With a well-formed cone
specification but a malformed `P` column-pointer array (length 0 instead
of `n + 1 = 2`), `CscMatrix::new`'s assert fires before the
fault-isolation scope opens and the call ends in a host fault, not in a
returned result — while the same call with the well-formed column
pointers returns normally. -/
theorem malformed_colptr_escapes_as_host_fault :
    ConeSpec.parse (.ok coneJson0) = .ok spec0 ∧
    cscNewOk pdBadColptr.n pdBadColptr.p_col_ptr pdBadColptr.p_row_idx pdBadColptr.p_values
      = false ∧
    solveHost oracleW2 pdBadColptr (.ok coneJson0) (.ok (Json.obj [])) = .fault ∧
    solveHost oracleW2 pd0 (.ok coneJson0) (.ok (Json.obj [])) =
      .returned (solve oracleW2 pd0 (.ok coneJson0) (.ok (Json.obj []))) :=
  ⟨rfl, rfl, rfl, rfl⟩

/-- Claim C1 as amended: failures at the cone-spec parse stage, and —
provided the two matrix constructions' dimensional asserts pass, those
asserts running before the fault-isolation scope — failures of the
delegated solver invocation (where a dimension-mismatched cone
specification is rejected by the external solver's validation), are
converted into data: the host receives a returned `SolveResult` whose
status string marks an error outcome, never a fault.  A matrix
constructor assert failing escapes the scope instead (see the
counterexample). -/
theorem solve_failures_in_scope_surface_as_error_status
    (oracle : SolverCall → SolverRun) (pd : ProblemData)
    (cone_spec_json settings_json : Except String Json)
    (h : (∃ e, ConeSpec.parse cone_spec_json = .error e) ∨
         ((cscNewOk pd.n pd.p_col_ptr pd.p_row_idx pd.p_values &&
             cscNewOk pd.n pd.a_col_ptr pd.a_row_idx pd.a_values) = true ∧
          ∃ spec payload, ConeSpec.parse cone_spec_json = .ok spec ∧
            oracle (buildCall pd spec (parsedSettings settings_json)) = .panicked payload)) :
    solveHost oracle pd cone_spec_json settings_json =
      .returned (solve oracle pd cone_spec_json settings_json) ∧
    strBeginsWith "error: " (solve oracle pd cone_spec_json settings_json).status = true := by
  rcases h with ⟨e, hp⟩ | ⟨hc, spec, payload, hp, hr⟩
  · refine ⟨?_, ?_⟩
    · unfold solveHost
      rw [hp]
    · rw [solve_of_parse_error oracle pd settings_json hp]
      exact strBeginsWith_cone_err e
  · refine ⟨?_, ?_⟩
    · unfold solveHost
      rw [hp, hc]
    · rw [solve_of_panicked oracle pd hp hr]
      exact strBeginsWith_panic_err _

/-- Witness for the amended C1: the example problem passes both
construction asserts and the solver panics inside the scope. -/
theorem solve_failures_in_scope_surface_as_error_status_witness :
    solveHost oracleW1 pd0 (.ok coneJson0) (.ok (Json.obj [])) =
      .returned (solve oracleW1 pd0 (.ok coneJson0) (.ok (Json.obj []))) ∧
    strBeginsWith "error: "
      (solve oracleW1 pd0 (.ok coneJson0) (.ok (Json.obj []))).status = true :=
  solve_failures_in_scope_surface_as_error_status oracleW1 pd0 _ _
    (.inr ⟨rfl, spec0, .other, rfl, rfl⟩)

/-- Claim C2: when the delegated solver invocation terminates abnormally,
the caught fault becomes a result whose status is
`error: solver panic: ` followed by the panic's message — the string
payload when the fault carries one (as `&str` or `String`), else the
generic message. -/
theorem solver_panic_yields_panic_error_result
    (oracle : SolverCall → SolverRun) (pd : ProblemData)
    (cone_spec_json settings_json : Except String Json)
    (spec : ConeSpec) (payload : PanicPayload)
    (hparse : ConeSpec.parse cone_spec_json = .ok spec)
    (hrun : oracle (buildCall pd spec (parsedSettings settings_json)) = .panicked payload) :
    (solve oracle pd cone_spec_json settings_json).status =
      "error: solver panic: " ++ panicMessage payload ∧
    (∀ s, panicMessage (.str s) = s) ∧
    (∀ s, panicMessage (.string s) = s) ∧
    panicMessage .other = "Unknown panic" := by
  refine ⟨?_, fun s => rfl, fun s => rfl, rfl⟩
  rw [solve_of_panicked oracle pd hparse hrun]

/-- Witness for C2 at the example problem with a panicking solver. -/
theorem solver_panic_yields_panic_error_result_witness :
    (solve oracleW1 pd0 (.ok coneJson0) (.ok (Json.obj []))).status =
      "error: solver panic: " ++ panicMessage .other ∧
    (∀ s, panicMessage (.str s) = s) ∧
    (∀ s, panicMessage (.string s) = s) ∧
    panicMessage .other = "Unknown panic" :=
  solver_panic_yields_panic_error_result oracleW1 pd0 (.ok coneJson0) (.ok (Json.obj []))
    spec0 .other rfl rfl

/-- Claim C3: a cone-specification text that does not parse as a
`ConeSpec` yields the result whose status is `error: invalid cone spec: `
followed by the parser's message, with zero solve time and zero
iterations, and the outcome does not depend on the external solver — it
is never invoked. -/
theorem invalid_cone_spec_short_circuits
    (oracle oracle' : SolverCall → SolverRun) (pd : ProblemData)
    (cone_spec_json settings_json : Except String Json) (e : String)
    (h : ConeSpec.parse cone_spec_json = .error e) :
    solve oracle pd cone_spec_json settings_json =
      ⟨"error: invalid cone spec: " ++ e, none, none, none, F64.finite 0, 0⟩ ∧
    solve oracle pd cone_spec_json settings_json =
      solve oracle' pd cone_spec_json settings_json := by
  refine ⟨solve_of_parse_error oracle pd settings_json h, ?_⟩
  rw [solve_of_parse_error oracle pd settings_json h,
      solve_of_parse_error oracle' pd settings_json h]

/-- Witness for C3 at a concrete syntax error, under two different
solver behaviors. -/
theorem invalid_cone_spec_short_circuits_witness :
    solve oracleW1 pd0 (.error "EOF while parsing a value at line 1 column 0") (.error "x") =
      ⟨"error: invalid cone spec: " ++ "EOF while parsing a value at line 1 column 0",
       none, none, none, F64.finite 0, 0⟩ ∧
    solve oracleW1 pd0 (.error "EOF while parsing a value at line 1 column 0") (.error "x") =
      solve oracleW2 pd0 (.error "EOF while parsing a value at line 1 column 0") (.error "x") :=
  invalid_cone_spec_short_circuits oracleW1 oracleW2 pd0 _ _ _ rfl

/-- Claim C4 (code bug): when the settings text fails to parse,
`unwrap_or_default()` falls back to `SolverSettings::default()`, the
`derive(Default)` all-zero record — not to the serde field defaults
(`max_iter = 100`, `time_limit = ∞`, tolerances `1e-8`) that the struct's
own `#[serde(default = ...)]` attributes declare and the spec states.  The
solver is then invoked with `max_iter = 0` and `time_limit = 0.0`. -/
theorem settings_parse_failure_falls_back_to_zero_defaults :
    parsedSettings (.error "expected value at line 1 column 1") = SolverSettings.default ∧
    SolverSettings.default.max_iter = 0 ∧
    SolverSettings.default.time_limit = F64.finite 0 ∧
    SolverSettings.default.tol_gap_abs = F64.finite 0 ∧
    SolverSettings.default.tol_gap_rel = F64.finite 0 ∧
    SolverSettings.default ≠ settingsAllDefaults ∧
    settingsAllDefaults.max_iter = 100 ∧
    (buildCall pd0 spec0 (parsedSettings (.error "expected value at line 1 column 1"))).settings =
      ⟨false, 0, F64.finite 0, F64.finite 0, F64.finite 0⟩ := by
  refine ⟨rfl, rfl, rfl, rfl, rfl, ?_, rfl, rfl⟩
  decide

/-- Counterexample to C5 as stated: the finite sentinel installed for an
infinite time limit is `1e10` seconds, which is smaller than `3 × 10^17`
by more than a factor of `10^6` — nowhere near "approximately
3×10^17". -/
theorem time_limit_sentinel_is_1e10_not_3e17 :
    settingsAllDefaults.time_limit = F64.inf ∧
    (buildCall pd0 spec0 settingsAllDefaults).settings.time_limit = F64.finite (10 ^ 10) ∧
    (10 ^ 10 : ℚ) * 10 ^ 6 < 3 * 10 ^ 17 :=
  ⟨rfl, rfl, by norm_num⟩

/-- Claim C5 as amended: an infinite `time_limit` (including the default)
is silently replaced, before reaching the solver, by the finite sentinel
`1e10` seconds (about 317 years); a finite `time_limit` is passed through
unchanged; and along the actual parse path the value handed to the solver
is always finite. -/
theorem infinite_time_limit_mapped_to_finite_sentinel
    (pd : ProblemData) (spec : ConeSpec) (s : SolverSettings) (sj : Except String Json) :
    (s.time_limit.isInfinite = true →
        (buildCall pd spec s).settings.time_limit = F64.finite (10 ^ 10)) ∧
    (s.time_limit.isInfinite = false →
        (buildCall pd spec s).settings.time_limit = s.time_limit) ∧
    (∃ q : ℚ, (buildCall pd spec (parsedSettings sj)).settings.time_limit = F64.finite q) := by
  refine ⟨fun h => ?_, fun h => ?_, ?_⟩
  · simp [buildCall, h]
  · simp [buildCall, h]
  · rcases parsedSettings_time_limit sj with h | ⟨q, h⟩
    · exact ⟨10 ^ 10, by simp [buildCall, h, F64.isInfinite]⟩
    · exact ⟨q, by simp [buildCall, h, F64.isInfinite]⟩

/-- Witness for the amended C5 at a negative-infinite time limit. -/
theorem infinite_time_limit_mapped_to_finite_sentinel_witness :
    (buildCall pd0 spec0 ⟨true, 5, F64.negInf, F64.finite 0, F64.finite 0⟩).settings.time_limit =
      F64.finite (10 ^ 10) :=
  (infinite_time_limit_mapped_to_finite_sentinel pd0 spec0
    ⟨true, 5, F64.negInf, F64.finite 0, F64.finite 0⟩ (.error "x")).1 rfl

/-- Claim C6: the optional fields `obj_val`, `x` and `z` of any result of
`solve` are present exactly when the status string is `optimal`; under
every other status (including every error status) all three are
absent. -/
theorem solution_fields_present_iff_optimal
    (oracle : SolverCall → SolverRun) (pd : ProblemData)
    (cone_spec_json settings_json : Except String Json) :
    ((solve oracle pd cone_spec_json settings_json).obj_val.isSome = true ↔
        (solve oracle pd cone_spec_json settings_json).status = "optimal") ∧
    ((solve oracle pd cone_spec_json settings_json).x.isSome = true ↔
        (solve oracle pd cone_spec_json settings_json).status = "optimal") ∧
    ((solve oracle pd cone_spec_json settings_json).z.isSome = true ↔
        (solve oracle pd cone_spec_json settings_json).status = "optimal") := by
  cases hp : ConeSpec.parse cone_spec_json with
  | error e =>
      rw [solve_of_parse_error oracle pd settings_json hp]
      refine ⟨?_, ?_, ?_⟩ <;> simp [cone_err_ne_optimal e]
  | ok spec =>
      cases hr : oracle (buildCall pd spec (parsedSettings settings_json)) with
      | panicked payload =>
          rw [solve_of_panicked oracle pd hp hr]
          refine ⟨?_, ?_, ?_⟩ <;> simp [panic_err_ne_optimal (panicMessage payload)]
      | ok st obj xs zs t iters =>
          rw [solve_of_run_ok oracle pd hp hr]
          by_cases hst : st = SolverStatus.Solved
          · subst hst
            refine ⟨?_, ?_, ?_⟩ <;> simp [status_to_string]
          · refine ⟨?_, ?_, ?_⟩ <;> simp [hst, status_optimal_iff]

/-- Claim C7: the status translation is exactly the fixed mapping of the
source's `match`: `Solved ↦ optimal`, `PrimalInfeasible ↦ infeasible`,
`DualInfeasible ↦ unbounded`, `MaxIterations ↦ max_iterations`,
`MaxTime ↦ max_iterations`, and every other solver status to
`unknown`. -/
theorem status_translation_fixed_mapping :
    status_to_string .Solved = "optimal" ∧
    status_to_string .PrimalInfeasible = "infeasible" ∧
    status_to_string .DualInfeasible = "unbounded" ∧
    status_to_string .MaxIterations = "max_iterations" ∧
    status_to_string .MaxTime = "max_iterations" ∧
    (∀ s : SolverStatus, s ≠ .Solved → s ≠ .PrimalInfeasible → s ≠ .DualInfeasible →
        s ≠ .MaxIterations → s ≠ .MaxTime → status_to_string s = "unknown") := by
  refine ⟨rfl, rfl, rfl, rfl, rfl, ?_⟩
  intro s h1 h2 h3 h4 h5
  cases s <;> simp_all [status_to_string]

/-- Witness for C7's wildcard clause at a concrete non-listed status. -/
theorem status_translation_fixed_mapping_witness :
    status_to_string .NumericalError = "unknown" :=
  status_translation_fixed_mapping.2.2.2.2.2 SolverStatus.NumericalError
    (by decide) (by decide) (by decide) (by decide) (by decide)

/-- Claim C8: the cone list handed to the solver is exactly the ordered
concatenation: zero cone if its size is positive, nonnegative cone if its
size is positive, the second-order cones in list order, `exp` copies of
the exponential cone, and one power cone per alpha in list order — and
nothing else. -/
theorem build_cones_is_ordered_concatenation (spec : ConeSpec) :
    build_cones spec =
      (if spec.zero > 0 then [SupportedConeT.ZeroConeT spec.zero] else []) ++
      (if spec.nonneg > 0 then [SupportedConeT.NonnegativeConeT spec.nonneg] else []) ++
      spec.soc.map SupportedConeT.SecondOrderConeT ++
      List.replicate spec.exp SupportedConeT.ExponentialConeT ++
      spec.power.map SupportedConeT.PowerConeT := by
  simp only [build_cones, foldl_push_eq_append_map, range_foldl_push_eq_append_replicate]
  split_ifs <;> simp [List.append_assoc]

/-- Claim C9: each of the five `ConeSpec` fields is required — omitting
any one makes the cone-spec deserialization fail, and `solve` then returns
the invalid-cone-spec error outcome without invoking the solver — whereas
every `SolverSettings` field is individually optional and defaulted, so
the empty options object parses to the all-defaults settings. -/
theorem cone_spec_fields_required_settings_optional
    (fields : List (String × Json)) (name : String)
    (hmem : name ∈ ["zero", "nonneg", "soc", "exp", "power"])
    (hmiss : Json.getField fields name = none) :
    (∃ e, ConeSpec.fromJson (Json.obj fields) = .error e) ∧
    (∀ (oracle oracle' : SolverCall → SolverRun) (pd : ProblemData)
        (sj : Except String Json),
        strBeginsWith "error: invalid cone spec: "
          (solve oracle pd (.ok (.obj fields)) sj).status = true ∧
        (solve oracle pd (.ok (.obj fields)) sj).iterations = 0 ∧
        solve oracle pd (.ok (.obj fields)) sj = solve oracle' pd (.ok (.obj fields)) sj) ∧
    SolverSettings.fromJson (Json.obj []) = .ok settingsAllDefaults := by
  obtain ⟨e, he⟩ := coneSpec_missing_field fields name hmem hmiss
  have hp : ConeSpec.parse (.ok (.obj fields)) = .error e := by
    simp [ConeSpec.parse, he]
  refine ⟨⟨e, he⟩, ?_, rfl⟩
  intro oracle oracle' pd sj
  rw [solve_of_parse_error oracle pd sj hp, solve_of_parse_error oracle' pd sj hp]
  exact ⟨strBeginsWith_append _ _, rfl, rfl⟩

/-- Witness for C9: the empty object omits the `zero` field. -/
theorem cone_spec_fields_required_settings_optional_witness :
    (∃ e, ConeSpec.fromJson (Json.obj []) = .error e) ∧
    (∀ (oracle oracle' : SolverCall → SolverRun) (pd : ProblemData)
        (sj : Except String Json),
        strBeginsWith "error: invalid cone spec: "
          (solve oracle pd (.ok (.obj [])) sj).status = true ∧
        (solve oracle pd (.ok (.obj [])) sj).iterations = 0 ∧
        solve oracle pd (.ok (.obj [])) sj = solve oracle' pd (.ok (.obj [])) sj) ∧
    SolverSettings.fromJson (Json.obj []) = .ok settingsAllDefaults :=
  cone_spec_fields_required_settings_optional [] "zero" (by decide) rfl

/-- Claim C10: every error outcome of `solve` — cone-spec parse failure or
caught solver panic — reports `solve_time = 0.0` and `iterations = 0`. -/
theorem error_outcome_reports_zero_time_and_iterations
    (oracle : SolverCall → SolverRun) (pd : ProblemData)
    (cone_spec_json settings_json : Except String Json)
    (h : strBeginsWith "error: " (solve oracle pd cone_spec_json settings_json).status = true) :
    (solve oracle pd cone_spec_json settings_json).solve_time = F64.finite 0 ∧
    (solve oracle pd cone_spec_json settings_json).iterations = 0 := by
  cases hp : ConeSpec.parse cone_spec_json with
  | error e =>
      rw [solve_of_parse_error oracle pd settings_json hp]
      exact ⟨rfl, rfl⟩
  | ok spec =>
      cases hr : oracle (buildCall pd spec (parsedSettings settings_json)) with
      | panicked payload =>
          rw [solve_of_panicked oracle pd hp hr]
          exact ⟨rfl, rfl⟩
      | ok st obj xs zs t iters =>
          rw [solve_of_run_ok oracle pd hp hr] at h
          simp [status_to_string_no_error_marker st] at h

/-- Witness for C10 at a concrete failing parse. -/
theorem error_outcome_reports_zero_time_and_iterations_witness :
    (solve oracleW1 pd0 (.error "trailing characters at line 1 column 5") (.error "x")).solve_time
        = F64.finite 0 ∧
    (solve oracleW1 pd0 (.error "trailing characters at line 1 column 5") (.error "x")).iterations
        = 0 :=
  error_outcome_reports_zero_time_and_iterations oracleW1 pd0 _ _ (by decide)

end CvxJs
